import Mathlib

/-!
Verification development for the spotlight-texture projection demo
(`src/03-projection/script.js`).  The source registers an A-Frame system
(`spotlights`) that collects the visible spotlights each frame, a component
(`spotlight-texture`) that asynchronously loads a texture for a spotlight,
a component (`receive-spotlight-texture`) that publishes per-light auxiliary
uniforms, and a patched THREE.js shader chunk (`getSpotLightInfo`) that
projects the texture.  Each part is embedded below and the spec's claims are
settled against the embedding.
-/

namespace AframeProjection

/-! ### The light registry (`spotlights` system, script.js lines 1-20) -/

/-- A 3x3 matrix of reals; models the rotational (upper-left 3x3) part of a
THREE.js `Matrix4`, which is the only part `Vector3.transformDirection`
reads. -/
structure Mat3 where
  m00 : ℝ
  m01 : ℝ
  m02 : ℝ
  m10 : ℝ
  m11 : ℝ
  m12 : ℝ
  m20 : ℝ
  m21 : ℝ
  m22 : ℝ

/-- A 3-component real vector, modelling a THREE.js `Vector3` / GLSL `vec3`. -/
@[ext]
structure Vec3R where
  x : ℝ
  y : ℝ
  z : ℝ

/-- State of a `spotlight-texture` component attached to a spotlight entity:
its `data.src` identifier, its `data.intensity`, and the resolved
`this.texture` (absent until a load callback has run). -/
structure SpotlightTextureState where
  src : Nat
  intensity : ℝ
  texture : Option Nat

/-- The per-object data the script reads off a THREE.js `Object3D` during
collection and uniform building: the light discriminators, the shadow flag,
the layer mask, the visibility flag, the world matrix (rotation part), and
the optional `spotlight-texture` component reached through
`spotLight.el.components`. -/
structure SLight where
  isLight : Bool
  isSpotLight : Bool
  castShadow : Bool
  layers : Nat
  visible : Bool
  matrixWorld : Mat3
  binding : Option SpotlightTextureState

/-- A scene-graph node: a THREE.js `Object3D` with its children. -/
inductive SceneNode where
  | node (obj : SLight) (children : List SceneNode)

mutual

/-- `Object3D.traverseVisible`: skip an invisible node and its whole subtree,
otherwise visit the node and then its children in order (preorder). -/
def traverseVisible : SceneNode → List SLight
  | SceneNode.node obj children =>
    if obj.visible then obj :: traverseVisibleList children else []

/-- Traversal of a child list, left to right. -/
def traverseVisibleList : List SceneNode → List SLight
  | [] => []
  | c :: cs => traverseVisible c ++ traverseVisibleList cs

end

/-- `Layers.test`: two layer masks intersect iff their bitwise AND is
non-zero. -/
def layersTest (a b : Nat) : Bool := a &&& b != 0

/-- The filter applied in the traversal callback of `spotlights.tick`:
`object.isLight && object.isSpotLight && object.layers.test(camera.layers)`. -/
def spotlightPred (cameraLayers : Nat) (o : SLight) : Bool :=
  o.isLight && o.isSpotLight && layersTest o.layers cameraLayers

/-- The collection pass of `spotlights.tick` (lines 10-15): the objects
pushed onto `this.spotLights`, in traversal order. -/
def collectSpotLights (scene : SceneNode) (cameraLayers : Nat) : List SLight :=
  (traverseVisible scene).filter (spotlightPred cameraLayers)

/-- The comparator passed to `Array.prototype.sort` on line 18:
`(lightB.castShadow ? 1 : 0) - (lightA.castShadow ? 1 : 0)`. -/
def jsComparator (a b : SLight) : Int :=
  (if b.castShadow then 1 else 0) - (if a.castShadow then 1 else 0)

/-- One insertion step of a stable sort driven by `jsComparator`:
an element is placed before the first element it compares `<= 0` against,
which is how a stable `Array.prototype.sort` orders elements under this
comparator. -/
def stableInsert (a : SLight) : List SLight → List SLight
  | [] => [a]
  | b :: l => if jsComparator a b ≤ 0 then a :: b :: l else b :: stableInsert a l

/-- Stable sort by `jsComparator`, modelling `Array.prototype.sort` (stable
per the ECMAScript specification). -/
def stableSortJs : List SLight → List SLight
  | [] => []
  | a :: l => stableInsert a (stableSortJs l)

/-- `spotlights.tick` (lines 4-19): rebuild the list from scratch, collect,
then sort shadow-casting spotlights to the front. -/
def tickSpotLights (scene : SceneNode) (cameraLayers : Nat) : List SLight :=
  stableSortJs (collectSpotLights scene cameraLayers)

/-! ### Basic facts about the stable sort -/

theorem stableInsert_perm (a : SLight) (l : List SLight) :
    List.Perm (stableInsert a l) (a :: l) := by
  induction l with
  | nil => simp [stableInsert]
  | cons b l ih =>
    by_cases h : jsComparator a b ≤ 0
    · simp [stableInsert, h]
    · simp only [stableInsert, if_neg h]
      exact (ih.cons b).trans (List.Perm.swap a b l)

theorem stableSortJs_perm (l : List SLight) :
    List.Perm (stableSortJs l) l := by
  induction l with
  | nil => simp [stableSortJs]
  | cons a l ih =>
    exact (stableInsert_perm a (stableSortJs l)).trans (ih.cons a)

theorem jsComparator_le_of_cast (a b : SLight) (h : a.castShadow = true) :
    jsComparator a b ≤ 0 := by
  simp only [jsComparator, h, if_true]
  by_cases hb : b.castShadow <;> simp [hb]

theorem jsComparator_le_iff_of_not_cast (a b : SLight)
    (h : a.castShadow = false) :
    jsComparator a b ≤ 0 ↔ b.castShadow = false := by
  simp only [jsComparator, h, if_false]
  by_cases hb : b.castShadow <;> simp [hb]

theorem stableInsert_of_cast (a : SLight) (h : a.castShadow = true)
    (l : List SLight) : stableInsert a l = a :: l := by
  cases l with
  | nil => rfl
  | cons b l => simp [stableInsert, jsComparator_le_of_cast a b h]

theorem stableInsert_append_of_not_cast (a : SLight)
    (h : a.castShadow = false) (xs ys : List SLight)
    (hxs : ∀ x ∈ xs, x.castShadow = true)
    (hys : ∀ y ∈ ys, y.castShadow = false) :
    stableInsert a (xs ++ ys) = xs ++ a :: ys := by
  induction xs with
  | nil =>
    cases ys with
    | nil => rfl
    | cons y ys =>
      have hy : y.castShadow = false := hys y (by simp)
      simp [stableInsert, (jsComparator_le_iff_of_not_cast a y h).mpr hy]
  | cons x xs ih =>
    have hx : x.castShadow = true := hxs x (by simp)
    have hnot : ¬ jsComparator a x ≤ 0 := by
      rw [jsComparator_le_iff_of_not_cast a x h]
      simp [hx]
    simp only [List.cons_append, stableInsert, if_neg hnot, List.append_eq]
    rw [ih (fun z hz => hxs z (by simp [hz])) ]

/-- The key structural fact: the JS stable sort with the binary shadow key
yields exactly the stable partition (shadow casters first, traversal order
preserved within each group). -/
theorem stableSortJs_eq_partition (l : List SLight) :
    stableSortJs l =
      l.filter (fun o => o.castShadow) ++ l.filter (fun o => !o.castShadow) := by
  induction l with
  | nil => rfl
  | cons a l ih =>
    by_cases ha : a.castShadow
    · simp only [stableSortJs, ih, stableInsert_of_cast a ha, List.filter_cons,
        ha, Bool.not_true, if_true]
      simp
    · have ha' : a.castShadow = false := by simpa using ha
      simp only [stableSortJs, ih]
      rw [stableInsert_append_of_not_cast a ha'
        (l.filter (fun o => o.castShadow)) (l.filter (fun o => !o.castShadow))
        (fun x hx => by simpa using (List.of_mem_filter hx))
        (fun y hy => by simpa using (List.of_mem_filter hy))]
      simp [List.filter_cons, ha']

/-! ### The texture binding (`spotlight-texture` component, lines 22-42)

The component's observable state is the currently bound `data.src`, the
resolved `this.texture`, and the set of loads that have been issued but whose
callback has not yet run.  The host invokes `update` synchronously on a
source change and fires at most one callback per issued load, in any order
(loads are asynchronous); a failed load never invokes the success callback. -/

/-- Observable state of one `spotlight-texture` binding. -/
structure BindingState where
  src : Nat
  texture : Option Nat
  pending : List Nat
  deriving DecidableEq

/-- Events driving one binding: a `setSource` (the component's `update` with
a changed or unchanged `data.src`), a successful completion of the load
issued for source `s` yielding texture `t`, or a failure of that load. -/
inductive LoadEvent where
  | setSource (s : Nat)
  | complete (s : Nat) (t : Nat)
  | fail (s : Nat)
  deriving DecidableEq

/-- One step of the binding.  `setSource`: `update` runs `updateSrc` only when
the id changed (line 29); `updateSrc` (lines 33-41) clears `this.texture` and
issues a load for the new id.  `complete`: the load callback applies color
correction `cc` and stores the texture unconditionally — the code has no
check that the completed id is still current.  `fail`: the success callback
never runs, so the state is untouched apart from the load no longer being
outstanding. -/
def stepB (cc : Nat → Nat) (st : BindingState) : LoadEvent → BindingState
  | LoadEvent.setSource s =>
    if s = st.src then st
    else { src := s, texture := none, pending := st.pending ++ [s] }
  | LoadEvent.complete s t =>
    if s ∈ st.pending then
      { st with texture := some (cc t), pending := st.pending.erase s }
    else st
  | LoadEvent.fail s => { st with pending := st.pending.erase s }

/-- Run a sequence of events through one binding. -/
def runB (cc : Nat → Nat) (st : BindingState) (es : List LoadEvent) :
    BindingState :=
  es.foldl (stepB cc) st

/-- `getResolvedTexture`: the binding's `this.texture`. -/
def getResolvedTexture (st : BindingState) : Option Nat := st.texture

/-! ### Uniform publishing (`receive-spotlight-texture`, lines 44-90) -/

/-- Multiply a `Mat3` (rotation part of a `Matrix4`) by a vector. -/
def mulVec3 (m : Mat3) (v : Vec3R) : Vec3R :=
  ⟨m.m00 * v.x + m.m01 * v.y + m.m02 * v.z,
   m.m10 * v.x + m.m11 * v.y + m.m12 * v.z,
   m.m20 * v.x + m.m21 * v.y + m.m22 * v.z⟩

/-- Componentwise subtraction of vectors. -/
def sub3 (a b : Vec3R) : Vec3R := ⟨a.x - b.x, a.y - b.y, a.z - b.z⟩

/-- Scalar multiple of a vector. -/
def smul3 (k : ℝ) (v : Vec3R) : Vec3R := ⟨k * v.x, k * v.y, k * v.z⟩

/-- Dot product. -/
def dot3 (a b : Vec3R) : ℝ := a.x * b.x + a.y * b.y + a.z * b.z

/-- Cross product. -/
def cross3 (a b : Vec3R) : Vec3R :=
  ⟨a.y * b.z - a.z * b.y, a.z * b.x - a.x * b.z, a.x * b.y - a.y * b.x⟩

/-- Euclidean length of a vector. -/
noncomputable def length3 (v : Vec3R) : ℝ := Real.sqrt (dot3 v v)

/-- GLSL / THREE.js `normalize`: divide a vector by its length. -/
noncomputable def normalize3 (v : Vec3R) : Vec3R := smul3 (length3 v)⁻¹ v

/-- THREE.js `Vector3.transformDirection`: apply the rotation part of a
matrix and renormalize. -/
noncomputable def transformDirection (m : Mat3) (v : Vec3R) : Vec3R :=
  normalize3 (mulVec3 m v)

/-- One entry of the `spotLightExs` uniform array built by `updateUniforms`
(lines 62-66).  `intensity` is an `Option` because
`spotLightTextureInfo?.data.intensity` is `undefined` when the spotlight has
no `spotlight-texture` component. -/
structure ExtraEntry where
  up : Vec3R
  hasTexture : Bool
  intensity : Option ℝ

/-- Build the `spotLightExs` entry for one spotlight (lines 53-66): take the
model-space up vector, rotate it into world space by the light's world
matrix, then into camera space by the camera's inverse world matrix, and read
the optional `spotlight-texture` component. -/
noncomputable def buildExtra (camInv : Mat3) (l : SLight) : ExtraEntry :=
  { up := transformDirection camInv
      (transformDirection l.matrixWorld ⟨0, 1, 0⟩),
    hasTexture := (l.binding.bind (fun b => b.texture)).isSome,
    intensity := l.binding.map (fun b => b.intensity) }

/-- `updateUniforms` (lines 48-74): one `forEach` pass over the registry's
current list pushing a `spotLightExs` entry and a `spotLightTextures` entry
per light. -/
noncomputable def updateUniforms (lights : List SLight) (camInv : Mat3) :
    List ExtraEntry × List (Option Nat) :=
  lights.foldl
    (fun acc l =>
      (acc.1 ++ [buildExtra camInv l],
       acc.2 ++ [l.binding.bind (fun b => b.texture)]))
    ([], [])

/-- The uniform slots of a compiled shader object that the component writes
(lines 72-73). -/
structure ShaderState where
  spotLightExs : List ExtraEntry
  spotLightTextures : List (Option Nat)

/-- Overwrite the shader object's two uniform slots with freshly built
arrays, as lines 72-73 do. -/
noncomputable def publishShader (lights : List SLight) (camInv : Mat3)
    (_sh : ShaderState) : ShaderState :=
  { spotLightExs := (updateUniforms lights camInv).1,
    spotLightTextures := (updateUniforms lights camInv).2 }

/-- The component's own mutable state: the `shaderObject` captured at compile
time (`null` before the first compile). -/
structure CompState where
  shaderObject : Option ShaderState

/-- `material.onBeforeCompile` (lines 80-83): publish the uniforms on the
incoming shader and record it as the current `shaderObject`. -/
noncomputable def onBeforeCompile (lights : List SLight) (camInv : Mat3)
    (shader : ShaderState) (_st : CompState) : CompState :=
  { shaderObject := some (publishShader lights camInv shader) }

/-- `material.onBeforeRender` (lines 85-88): a no-op while `shaderObject` is
still `null`, otherwise republish the uniforms on the recorded shader. -/
noncomputable def onBeforeRender (lights : List SLight) (camInv : Mat3)
    (st : CompState) : CompState :=
  match st.shaderObject with
  | none => st
  | some sh => { shaderObject := some (publishShader lights camInv sh) }

/-! ### Component initialization (`receive-spotlight-texture.init`, line 77) -/

/-- A mesh object as far as `init` reads it: it has a material. -/
structure MeshObj where
  material : Nat

/-- An A-Frame entity as far as `init` reads it: `getObject3D(name)` returns
the object registered under that name, or `undefined`. -/
structure AEntity where
  object3DMap : String → Option MeshObj

/-- `el.getObject3D(name)`. -/
def getObject3D (e : AEntity) (name : String) : Option MeshObj :=
  e.object3DMap name

/-- `receive-spotlight-texture.init` up to its only fallible step: line 77
dereferences `this.el.getObject3D('mesh').material`, which throws when no
`mesh` object exists.  `none` models the thrown `TypeError`; on success
the component starts with `shaderObject = null` and the hooks installed on
the retrieved material. -/
def receiveInit (e : AEntity) : Option (Nat × CompState) :=
  (getObject3D e "mesh").map (fun m => (m.material, { shaderObject := none }))

/-! ### The patched shader routine (lines 104-176)

The GLSL is modelled over the reals.  `getSpotAttenuation` and
`getDistanceAttenuation` are THREE.js built-ins the patched chunk calls but
does not define; the distance attenuation is kept abstract (a parameter),
the angular attenuation is the host's documented smoothstep. -/

/-- GLSL `clamp(x, 0.0, 1.0)`. -/
noncomputable def clamp01 (x : ℝ) : ℝ := max 0 (min 1 x)

/-- GLSL `smoothstep(edge0, edge1, x)`. -/
noncomputable def smoothstep (edge0 edge1 x : ℝ) : ℝ :=
  let t := clamp01 ((x - edge0) / (edge1 - edge0))
  t * t * (3 - 2 * t)

/-- Modelled from the spec: the host pipeline's `getSpotAttenuation`, which
the patched chunk calls but whose definition lives in the unpatched THREE.js
shader library — "Compute angular attenuation from the cone/penumbra cosines
exactly as the unmodified routine does", i.e. a smoothstep of the angle
cosine between the cone and penumbra cosines. -/
noncomputable def getSpotAttenuation (coneCos penumbraCos angleCos : ℝ) : ℝ :=
  smoothstep coneCos penumbraCos angleCos

/-- The GLSL `SpotLight` struct of the patched chunk (lines 110-118). -/
structure GSpotLight where
  position : Vec3R
  direction : Vec3R
  color : Vec3R
  distance : ℝ
  decay : ℝ
  coneCos : ℝ
  penumbraCos : ℝ

/-- The GLSL `SpotLightEx` struct of the patched chunk (lines 120-124). -/
structure GSpotLightEx where
  up : Vec3R
  hasTexture : Bool
  intensity : ℝ

/-- The GLSL `IncidentLight` out-parameter. -/
structure GIncidentLight where
  direction : Vec3R
  color : Vec3R
  visible : Prop

/-- The zero vector (GLSL `vec3(0.0)`). -/
def zero3 : Vec3R := ⟨0, 0, 0⟩

/-- The sample-coordinate computation of the textured branch
(lines 147-157), as a function of the already-normalized light direction. -/
noncomputable def texSamplePoint (spotLight : GSpotLight)
    (spotLightEx : GSpotLightEx) (lightDir : Vec3R) : ℝ × ℝ :=
  let left := normalize3 (cross3 spotLightEx.up spotLight.direction)
  let coneAngle := Real.arccos spotLight.coneCos
  let leftCos := dot3 lightDir left
  let leftAngle := Real.arccos leftCos
  let upCos := dot3 lightDir spotLightEx.up
  let upAngle := Real.arccos upCos
  (1 / 2 + (leftAngle - Real.pi / 2) / (2 * coneAngle),
   1 / 2 + (upAngle - Real.pi / 2) / (2 * coneAngle))

/-- The patched `getSpotLightInfo` (lines 131-173).  `dAtt` is the host's
`getDistanceAttenuation` and `tex` the `texture(...)` lookup, both host
collaborators taken as parameters.  Note the guard on line 141 is the
always-true `spotAttenuation > 0.0 || spotAttenuation <= 0.0`. -/
noncomputable def getSpotLightInfo (dAtt : ℝ → ℝ → ℝ → ℝ)
    (tex : ℝ → ℝ → Vec3R) (spotLight : GSpotLight)
    (spotLightEx : GSpotLightEx) (geomPos : Vec3R) : GIncidentLight :=
  let lVector := sub3 spotLight.position geomPos
  let ldir := normalize3 lVector
  let angleCos := dot3 ldir spotLight.direction
  let spotAttenuation :=
    getSpotAttenuation spotLight.coneCos spotLight.penumbraCos angleCos
  if 0 < spotAttenuation ∨ spotAttenuation ≤ 0 then
    let lightDistance := length3 lVector
    let color :=
      if spotLightEx.hasTexture then
        let sp := texSamplePoint spotLight spotLightEx ldir
        smul3 spotLightEx.intensity (tex sp.1 sp.2)
      else spotLight.color
    let c :=
      smul3 (dAtt lightDistance spotLight.distance spotLight.decay)
        (smul3 spotAttenuation color)
    { direction := ldir, color := c, visible := c ≠ zero3 }
  else
    { direction := ldir, color := zero3, visible := False }

/-- Modelled from the spec: the unmodified host routine the patch replaces —
"the native color times the angular and distance attenuation of the original
routine", with the original early-out when the angular attenuation is not
positive. -/
noncomputable def originalGetSpotLightInfo (dAtt : ℝ → ℝ → ℝ → ℝ)
    (spotLight : GSpotLight) (geomPos : Vec3R) : GIncidentLight :=
  let lVector := sub3 spotLight.position geomPos
  let ldir := normalize3 lVector
  let angleCos := dot3 ldir spotLight.direction
  let spotAttenuation :=
    getSpotAttenuation spotLight.coneCos spotLight.penumbraCos angleCos
  if 0 < spotAttenuation then
    let lightDistance := length3 lVector
    let c :=
      smul3 (dAtt lightDistance spotLight.distance spotLight.decay)
        (smul3 spotAttenuation spotLight.color)
    { direction := ldir, color := c, visible := c ≠ zero3 }
  else
    { direction := ldir, color := zero3, visible := False }

/-! ### Shared helper lemmas and concrete fixtures -/

/-- The identity rotation, used for concrete instantiations. -/
def I3 : Mat3 := ⟨1, 0, 0, 0, 1, 0, 0, 0, 1⟩

/-- A visible spotlight on layer 1 with no `spotlight-texture` component. -/
def noBindingLight : SLight :=
  { isLight := true, isSpotLight := true, castShadow := false, layers := 1,
    visible := true, matrixWorld := I3, binding := none }

/-- A visible, shadow-casting spotlight on layer 1. -/
def shadowLight : SLight :=
  { noBindingLight with castShadow := true }

/-- A visible non-light object (e.g. a mesh). -/
def plainObject : SLight :=
  { noBindingLight with isLight := false, isSpotLight := false }

theorem runB_texture_none_of_no_complete (cc : Nat → Nat)
    (st : BindingState) (es : List LoadEvent) (h : st.texture = none)
    (hes : ∀ e ∈ es, ∀ a b, e ≠ LoadEvent.complete a b) :
    (runB cc st es).texture = none := by
  induction es generalizing st with
  | nil => simpa [runB] using h
  | cons e es ih =>
    have hstep : (stepB cc st e).texture = none := by
      cases e with
      | setSource s =>
        by_cases hs : s = st.src
        · simpa [stepB, hs] using h
        · simp [stepB, hs]
      | complete a b => exact absurd rfl (hes (LoadEvent.complete a b) (by simp) a b)
      | fail s => simpa [stepB] using h
    have : runB cc st (e :: es) = runB cc (stepB cc st e) es := rfl
    rw [this]
    exact ih (stepB cc st e) hstep (fun e' he' => hes e' (by simp [he']))

theorem runB_two_rebinds (cc : Nat → Nat) (st : BindingState)
    (s1 s2 : Nat) (h1 : s1 ≠ st.src) (h2 : s2 ≠ s1) :
    runB cc st [LoadEvent.setSource s1, LoadEvent.setSource s2]
      = { src := s2, texture := none,
          pending := (st.pending ++ [s1]) ++ [s2] } := by
  simp [runB, stepB, h1, h2]

/-! ### C1: rebinding twice before either load completes -/

/-- C1 counterexample: `setSource 1` then `setSource 2` before either load
completes; if source 2's load (texture 20) completes first and source 1's
load (texture 10) completes last, the binding ends holding source 1's
texture — the claimed superseded-id guard does not exist in `updateSrc`
(lines 33-41), so the final texture does not correspond to the second
source. -/
theorem rebind_stale_completion_wins_cex :
    (runB id { src := 0, texture := none, pending := [] }
      [LoadEvent.setSource 1, LoadEvent.setSource 2,
       LoadEvent.complete 2 20, LoadEvent.complete 1 10]).texture = some 10 ∧
    (runB id { src := 0, texture := none, pending := [] }
      [LoadEvent.setSource 1, LoadEvent.setSource 2,
       LoadEvent.complete 2 20, LoadEvent.complete 1 10]).texture ≠ some 20 := by
  decide

/-- C1 (amended): after `setSource S1; setSource S2` with both loads
outstanding, the load callback stores its texture unconditionally, so the
binding's final resolved texture is that of whichever load completes last:
the second source's texture when completions arrive in request order, the
first source's (stale) texture when they arrive reversed. -/
theorem rebind_last_completion_wins (cc : Nat → Nat) (st : BindingState)
    (s1 s2 t1 t2 : Nat) (h1 : s1 ≠ st.src) (h2 : s2 ≠ s1) :
    (runB cc st
      [LoadEvent.setSource s1, LoadEvent.setSource s2,
       LoadEvent.complete s1 t1, LoadEvent.complete s2 t2]).texture
      = some (cc t2) ∧
    (runB cc st
      [LoadEvent.setSource s1, LoadEvent.setSource s2,
       LoadEvent.complete s2 t2, LoadEvent.complete s1 t1]).texture
      = some (cc t1) := by
  have hsplit : ∀ e3 e4 : LoadEvent,
      runB cc st [LoadEvent.setSource s1, LoadEvent.setSource s2, e3, e4]
        = runB cc (runB cc st [LoadEvent.setSource s1, LoadEvent.setSource s2])
            [e3, e4] := by
    intro e3 e4; rfl
  rw [hsplit, hsplit, runB_two_rebinds cc st s1 s2 h1 h2]
  constructor
  · have hm1 : s1 ∈ st.pending ++ [s1, s2] := by simp
    have hm2 : s2 ∈ (st.pending ++ [s1, s2]).erase s1 :=
      (List.mem_erase_of_ne h2).mpr (by simp)
    simp [runB, stepB, hm1, hm2]
  · have hm2 : s2 ∈ st.pending ++ [s1, s2] := by simp
    have hm1 : s1 ∈ ((st.pending ++ [s1, s2]).erase s2) :=
      (List.mem_erase_of_ne (Ne.symm h2)).mpr (by simp)
    simp [runB, stepB, hm2, hm1]

/-- C1 witness: the amended claim evaluated on a concrete rebind 1 → 2 with
textures 10 and 20. -/
theorem rebind_last_completion_wins_witness :
    ((1 : Nat) ≠ 0 ∧ (2 : Nat) ≠ 1) ∧
    ((runB id { src := 0, texture := none, pending := [] }
      [LoadEvent.setSource 1, LoadEvent.setSource 2,
       LoadEvent.complete 1 10, LoadEvent.complete 2 20]).texture = some 20 ∧
     (runB id { src := 0, texture := none, pending := [] }
      [LoadEvent.setSource 1, LoadEvent.setSource 2,
       LoadEvent.complete 2 20, LoadEvent.complete 1 10]).texture = some 10) :=
  ⟨⟨by decide, by decide⟩,
    rebind_last_completion_wins id { src := 0, texture := none, pending := [] }
      1 2 10 20 (by decide) (by decide)⟩

/-! ### C6: clearing on rebind, absence until completion, failure -/

/-- C6 counterexample: with a load for source 1 still outstanding,
`setSource 2` clears the texture, but the stale completion of source 1's
load then resolves the texture even though no load for the new id 2 has
completed — so "absent until a load for the new id completes" is false. -/
theorem stale_load_resolves_before_new_cex :
    (runB id { src := 1, texture := none, pending := [1] }
      [LoadEvent.setSource 2, LoadEvent.complete 1 10]).texture = some 10 ∧
    (runB id { src := 1, texture := none, pending := [1] }
      [LoadEvent.setSource 2, LoadEvent.complete 1 10]).texture ≠ none := by
  decide

/-- C6 (amended): `setSource` with a different id clears the resolved
texture immediately, and the texture then stays absent until some
outstanding load completes — which is the new id's load only when no stale
load from a previous source is still in flight; a failed load never touches
the resolved texture, so failure leaves it absent. -/
theorem setSource_clears_resolved_texture (cc : Nat → Nat)
    (st : BindingState) (s : Nat) (h : s ≠ st.src) :
    (stepB cc st (LoadEvent.setSource s)).texture = none ∧
    (∀ es : List LoadEvent,
      (∀ e ∈ es, ∀ a b, e ≠ LoadEvent.complete a b) →
      (runB cc (stepB cc st (LoadEvent.setSource s)) es).texture = none) ∧
    (∀ u : Nat, (stepB cc st (LoadEvent.fail u)).texture = st.texture) := by
  have hclear : (stepB cc st (LoadEvent.setSource s)).texture = none := by
    simp [stepB, h]
  exact ⟨hclear,
    fun es hes => runB_texture_none_of_no_complete cc _ es hclear hes,
    fun u => by simp [stepB]⟩

/-- C6 witness: the amended claim on a concrete rebind 0 → 5 followed by a
failed load of 5. -/
theorem setSource_clears_resolved_texture_witness :
    ((5 : Nat) ≠ 0) ∧
    ((stepB id { src := 0, texture := none, pending := [] }
        (LoadEvent.setSource 5)).texture = none ∧
     (runB id (stepB id { src := 0, texture := none, pending := [] }
        (LoadEvent.setSource 5)) [LoadEvent.fail 5]).texture = none) := by
  have h := setSource_clears_resolved_texture id
    { src := 0, texture := none, pending := [] } 5 (by decide)
  refine ⟨by decide, h.1, h.2.1 [LoadEvent.fail 5] ?_⟩
  intro e he a b
  simp only [List.mem_singleton] at he
  subst he
  simp

/-! ### C2: the per-frame collection is exact -/

/-- C2: the registry's per-frame output contains exactly the traversed
(visible) objects that are spotlights whose layer mask intersects the
camera's; its length is the count of such spotlights, every non-spotlight
and out-of-layer object is excluded, and a scene whose only node is not a
light yields the empty sequence. -/
theorem collect_spotlights_exact (scene : SceneNode) (cam : Nat) :
    (tickSpotLights scene cam).length
      = ((traverseVisible scene).filter (spotlightPred cam)).length ∧
    (∀ o : SLight, o ∈ tickSpotLights scene cam ↔
      (o ∈ traverseVisible scene ∧ o.isLight = true ∧ o.isSpotLight = true ∧
        layersTest o.layers cam = true)) ∧
    (∀ obj : SLight, obj.isLight = false →
      tickSpotLights (SceneNode.node obj []) cam = []) := by
  refine ⟨?_, ?_, ?_⟩
  · exact (stableSortJs_perm _).length_eq
  · intro o
    rw [tickSpotLights, (stableSortJs_perm _).mem_iff, collectSpotLights,
      List.mem_filter]
    simp [spotlightPred, Bool.and_eq_true, and_assoc]
  · intro obj hobj
    by_cases hv : obj.visible
    · simp [tickSpotLights, collectSpotLights, traverseVisible,
        traverseVisibleList, hv, List.filter_cons, spotlightPred, hobj,
        stableSortJs]
    · simp [tickSpotLights, collectSpotLights, traverseVisible, hv,
        stableSortJs]

/-- C2 witness: a concrete scene — root (not a light) with a spotlight child
on layer 1 and a plain mesh child; the spotlight is in the output, the mesh
is not, and a lone non-light scene yields the empty list. -/
theorem collect_spotlights_exact_witness :
    (noBindingLight ∈
        tickSpotLights
          (SceneNode.node plainObject
            [SceneNode.node noBindingLight [], SceneNode.node plainObject []]) 1
      ↔ (noBindingLight ∈
          traverseVisible
            (SceneNode.node plainObject
              [SceneNode.node noBindingLight [], SceneNode.node plainObject []])
          ∧ noBindingLight.isLight = true ∧ noBindingLight.isSpotLight = true
          ∧ layersTest noBindingLight.layers 1 = true)) ∧
    (plainObject.isLight = false ∧
      tickSpotLights (SceneNode.node plainObject []) 1 = []) :=
  ⟨(collect_spotlights_exact
      (SceneNode.node plainObject
        [SceneNode.node noBindingLight [], SceneNode.node plainObject []])
      1).2.1 noBindingLight,
   ⟨rfl,
    (collect_spotlights_exact (SceneNode.node plainObject []) 1).2.2
      plainObject rfl⟩⟩

/-! ### C3: the sort is a stable partition on the shadow flag -/

/-- C3: for every collected sequence, the registry's sorted output is the
stable partition on `castShadow`: it equals the shadow-casting objects (in
traversal order) followed by the rest (in traversal order); restricted to
either flag value the output order equals the traversal order; every entry
of the shadow-casting prefix casts shadows and every entry after it does
not. -/
theorem sort_stable_partition (scene : SceneNode) (cam : Nat) :
    tickSpotLights scene cam
      = (collectSpotLights scene cam).filter (fun o => o.castShadow)
        ++ (collectSpotLights scene cam).filter (fun o => !o.castShadow) ∧
    (tickSpotLights scene cam).filter (fun o => o.castShadow)
      = (collectSpotLights scene cam).filter (fun o => o.castShadow) ∧
    (tickSpotLights scene cam).filter (fun o => !o.castShadow)
      = (collectSpotLights scene cam).filter (fun o => !o.castShadow) ∧
    (∀ a ∈ (tickSpotLights scene cam).take
        ((collectSpotLights scene cam).filter (fun o => o.castShadow)).length,
      a.castShadow = true) ∧
    (∀ b ∈ (tickSpotLights scene cam).drop
        ((collectSpotLights scene cam).filter (fun o => o.castShadow)).length,
      b.castShadow = false) := by
  have key := stableSortJs_eq_partition (collectSpotLights scene cam)
  have htick : tickSpotLights scene cam
      = (collectSpotLights scene cam).filter (fun o => o.castShadow)
        ++ (collectSpotLights scene cam).filter (fun o => !o.castShadow) := key
  refine ⟨htick, ?_, ?_, ?_, ?_⟩
  · rw [htick, List.filter_append, List.filter_filter, List.filter_filter]
    simp
  · rw [htick, List.filter_append, List.filter_filter, List.filter_filter]
    simp
  · intro a ha
    rw [htick, List.take_left] at ha
    simpa using List.of_mem_filter ha
  · intro b hb
    rw [htick, List.drop_left] at hb
    simpa using List.of_mem_filter hb

/-- C3 witness: a scene whose traversal yields a non-caster then a caster;
the output is the caster followed by the non-caster, with the filter and
prefix/suffix properties instantiated. -/
theorem sort_stable_partition_witness :
    tickSpotLights
        (SceneNode.node plainObject
          [SceneNode.node noBindingLight [], SceneNode.node shadowLight []]) 1
      = [shadowLight, noBindingLight] ∧
    (∀ a ∈ (tickSpotLights
        (SceneNode.node plainObject
          [SceneNode.node noBindingLight [], SceneNode.node shadowLight []])
        1).take 1, a.castShadow = true) := by
  have h := sort_stable_partition
    (SceneNode.node plainObject
      [SceneNode.node noBindingLight [], SceneNode.node shadowLight []]) 1
  constructor
  · rw [h.1]
    rfl
  · have hlen : ((collectSpotLights
        (SceneNode.node plainObject
          [SceneNode.node noBindingLight [], SceneNode.node shadowLight []])
        1).filter (fun o => o.castShadow)).length = 1 := rfl
    intro a ha
    exact h.2.2.2.1 a (by rw [hlen]; exact ha)

/-! ### C4/C5/C7: the uniform-publishing layer -/

theorem updateUniforms_foldl_eq (lights : List SLight) (camInv : Mat3)
    (acc : List ExtraEntry × List (Option Nat)) :
    lights.foldl
      (fun acc l =>
        (acc.1 ++ [buildExtra camInv l],
         acc.2 ++ [l.binding.bind (fun b => b.texture)]))
      acc
      = (acc.1 ++ lights.map (buildExtra camInv),
         acc.2 ++ lights.map (fun l => l.binding.bind (fun b => b.texture))) := by
  induction lights generalizing acc with
  | nil => simp
  | cons l lights ih =>
    simp [List.foldl_cons, ih]

theorem updateUniforms_eq_map (lights : List SLight) (camInv : Mat3) :
    updateUniforms lights camInv
      = (lights.map (buildExtra camInv),
         lights.map (fun l => l.binding.bind (fun b => b.texture))) := by
  rw [updateUniforms, updateUniforms_foldl_eq]
  simp

/-- C4: at every publish — through the compile-time hook and through the
render-time hook — the published `spotLightExs` array and the parallel
`spotLightTextures` array both have exactly the length of the registry list
they were built from, whatever that list is. -/
theorem aux_light_data_length (lights : List SLight) (camInv : Mat3) :
    (updateUniforms lights camInv).1.length = lights.length ∧
    (updateUniforms lights camInv).2.length = lights.length ∧
    (∀ (shader : ShaderState) (st : CompState),
      (onBeforeCompile lights camInv shader st).shaderObject
        = some (publishShader lights camInv shader) ∧
      (publishShader lights camInv shader).spotLightExs.length = lights.length ∧
      (publishShader lights camInv shader).spotLightTextures.length
        = lights.length) ∧
    (∀ (st : CompState) (sh : ShaderState), st.shaderObject = some sh →
      (onBeforeRender lights camInv st).shaderObject
        = some (publishShader lights camInv sh)) := by
  have h := updateUniforms_eq_map lights camInv
  refine ⟨by rw [h]; simp, by rw [h]; simp, ?_, ?_⟩
  · intro shader st
    refine ⟨rfl, ?_, ?_⟩ <;> simp [publishShader, h]
  · intro st sh hsh
    simp [onBeforeRender, hsh]

/-- C4 witness: the compile hook and a render hook on a one-light registry
publish one-entry arrays. -/
theorem aux_light_data_length_witness :
    (updateUniforms [noBindingLight] I3).1.length = 1 ∧
    ({ shaderObject := some
        (publishShader [noBindingLight] I3
          { spotLightExs := [], spotLightTextures := [] }) } : CompState).shaderObject
      = some (publishShader [noBindingLight] I3
          { spotLightExs := [], spotLightTextures := [] }) ∧
    (onBeforeRender [noBindingLight] I3
        { shaderObject := some
            { spotLightExs := [], spotLightTextures := [] } }).shaderObject
      = some (publishShader [noBindingLight] I3
          { spotLightExs := [], spotLightTextures := [] }) :=
  ⟨(aux_light_data_length [noBindingLight] I3).1, rfl,
    (aux_light_data_length [noBindingLight] I3).2.2.2
      { shaderObject := some { spotLightExs := [], spotLightTextures := [] } }
      { spotLightExs := [], spotLightTextures := [] } rfl⟩

/-! ### C5: a spotlight without a binding -/

/-- C5 counterexample: for a spotlight with no `spotlight-texture`
component, the built entry's intensity is `undefined`
(`spotLightTextureInfo?.data.intensity`), not the schema default `10.0` or
any other scalar, and the parallel texture slot holds `undefined`, not a
placeholder texture. -/
theorem missing_binding_no_default_cex :
    (buildExtra I3 noBindingLight).intensity = none ∧
    (buildExtra I3 noBindingLight).intensity ≠ some 10 ∧
    (updateUniforms [noBindingLight] I3).2 = [none] := by
  refine ⟨rfl, by simp [buildExtra, noBindingLight], ?_⟩
  rw [updateUniforms_eq_map]
  rfl

/-- C5 (amended): for every registry slot holding a spotlight with no
`spotlight-texture` component, the published entry has `hasTexture = false`,
its intensity is absent (`undefined`), and the parallel texture slot is
absent (`undefined`) — no neutral default and no placeholder texture is
substituted. -/
theorem missing_binding_entry_fields (lights : List SLight) (camInv : Mat3)
    (i : Nat) (l : SLight) (hi : lights[i]? = some l)
    (hb : l.binding = none) :
    (updateUniforms lights camInv).1[i]? = some (buildExtra camInv l) ∧
    (buildExtra camInv l).hasTexture = false ∧
    (buildExtra camInv l).intensity = none ∧
    (updateUniforms lights camInv).2[i]? = some none := by
  have h := updateUniforms_eq_map lights camInv
  refine ⟨?_, ?_, ?_, ?_⟩
  · rw [h]
    simp [List.getElem?_map, hi]
  · simp [buildExtra, hb]
  · simp [buildExtra, hb]
  · rw [h]
    simp [List.getElem?_map, hi, hb]

/-- C5 witness: the amended claim evaluated on the one-light registry whose
spotlight has no binding. -/
theorem missing_binding_entry_fields_witness :
    ([noBindingLight][0]? = some noBindingLight ∧
      noBindingLight.binding = none) ∧
    ((updateUniforms [noBindingLight] I3).1[0]?
        = some (buildExtra I3 noBindingLight) ∧
      (buildExtra I3 noBindingLight).hasTexture = false ∧
      (buildExtra I3 noBindingLight).intensity = none ∧
      (updateUniforms [noBindingLight] I3).2[0]? = some none) :=
  ⟨⟨rfl, rfl⟩,
    missing_binding_entry_fields [noBindingLight] I3 0 noBindingLight rfl rfl⟩

/-! ### C7: the two hooks are idempotent and re-invocable -/

/-- C7: with the registry state and camera fixed, re-running the
compile-time hook or the render-time hook republishes the same uniform
state (both are idempotent, and the published arrays never grow beyond the
registry's length), and the render-time hook is a no-op while no program
has been compiled (`shaderObject` still `null`). -/
theorem hooks_idempotent (lights : List SLight) (camInv : Mat3) :
    (∀ (shader : ShaderState) (st : CompState),
      onBeforeCompile lights camInv shader
          (onBeforeCompile lights camInv shader st)
        = onBeforeCompile lights camInv shader st) ∧
    (∀ st : CompState,
      onBeforeRender lights camInv (onBeforeRender lights camInv st)
        = onBeforeRender lights camInv st) ∧
    (∀ st : CompState, st.shaderObject = none →
      onBeforeRender lights camInv st = st) ∧
    (∀ sh : ShaderState,
      publishShader lights camInv (publishShader lights camInv sh)
        = publishShader lights camInv sh ∧
      (publishShader lights camInv sh).spotLightExs.length = lights.length ∧
      (publishShader lights camInv sh).spotLightTextures.length
        = lights.length) := by
  refine ⟨fun shader st => rfl, ?_, ?_, ?_⟩
  · intro st
    cases hst : st.shaderObject with
    | none => simp [onBeforeRender, hst]
    | some sh => simp [onBeforeRender, hst, publishShader]
  · intro st hst
    cases st with
    | mk so => cases hst; rfl
  · intro sh
    refine ⟨rfl, ?_, ?_⟩ <;>
      simp [publishShader, updateUniforms_eq_map]

/-- C7 witness: the render hook applied to the freshly initialized component
state (`shaderObject = null`) changes nothing, and the compile hook is
idempotent on a concrete shader. -/
theorem hooks_idempotent_witness :
    (({ shaderObject := none } : CompState).shaderObject = none ∧
      onBeforeRender [noBindingLight] I3 { shaderObject := none }
        = { shaderObject := none }) ∧
    onBeforeCompile [noBindingLight] I3
        { spotLightExs := [], spotLightTextures := [] }
        (onBeforeCompile [noBindingLight] I3
          { spotLightExs := [], spotLightTextures := [] }
          { shaderObject := none })
      = onBeforeCompile [noBindingLight] I3
          { spotLightExs := [], spotLightTextures := [] }
          { shaderObject := none } :=
  ⟨⟨rfl, (hooks_idempotent [noBindingLight] I3).2.2.1
      { shaderObject := none } rfl⟩,
    (hooks_idempotent [noBindingLight] I3).1
      { spotLightExs := [], spotLightTextures := [] }
      { shaderObject := none }⟩

/-! ### Vector and attenuation lemmas for the shader claims -/

theorem sub3_sub3_self (a b : Vec3R) : sub3 a (sub3 a b) = b := by
  ext <;> simp [sub3]

theorem dot3_comm (a b : Vec3R) : dot3 a b = dot3 b a := by
  simp only [dot3]
  ring

theorem dot3_smul_right (k : ℝ) (a b : Vec3R) :
    dot3 a (smul3 k b) = k * dot3 a b := by
  simp only [dot3, smul3]
  ring

theorem dot3_cross3_right (a b : Vec3R) : dot3 a (cross3 b a) = 0 := by
  simp only [dot3, cross3]
  ring

theorem dot3_smul_smul (k : ℝ) (v : Vec3R) :
    dot3 (smul3 k v) (smul3 k v) = k * k * dot3 v v := by
  simp only [dot3, smul3]
  ring

theorem length3_smul_of_unit {d : ℝ} {v : Vec3R} (hd : 0 ≤ d)
    (hv : dot3 v v = 1) : length3 (smul3 d v) = d := by
  rw [length3, dot3_smul_smul, hv, mul_one, Real.sqrt_mul_self hd]

theorem normalize3_smul_of_unit {d : ℝ} {v : Vec3R} (hd : 0 < d)
    (hv : dot3 v v = 1) : normalize3 (smul3 d v) = v := by
  rw [normalize3, length3_smul_of_unit hd.le hv]
  ext <;> simp [smul3] <;> field_simp

theorem dot3_normalize3_cross3 (a b : Vec3R) :
    dot3 a (normalize3 (cross3 b a)) = 0 := by
  rw [normalize3, dot3_smul_right, dot3_cross3_right, mul_zero]

theorem smoothstep_at_one {a b : ℝ} (hab : a < b) (hb : b ≤ 1) :
    smoothstep a b 1 = 1 := by
  have hba : 0 < b - a := by linarith
  have h1 : (1 : ℝ) ≤ (1 - a) / (b - a) := by
    rw [le_div_iff₀ hba]
    linarith
  have hmin : min 1 ((1 - a) / (b - a)) = 1 := min_eq_left h1
  rw [smoothstep, clamp01, hmin]
  norm_num

theorem smul3_one (v : Vec3R) : smul3 1 v = v := by
  ext <;> simp [smul3]

/-! ### C8: on-axis point with a bound texture -/

/-- C8: for a spotlight with a bound texture and intensity `2.0`, a unit
spotlight direction, a camera-space up vector perpendicular to it, and a
shaded point exactly on the light's forward axis (at distance `d > 0`
inside the cone, with `coneCos < penumbraCos <= 1`), the patched routine's
sample coordinate is `(0.5, 0.5)` and the resulting light color is the
texture sample at `(0.5, 0.5)` times `2.0` times the distance
attenuation. -/
theorem on_axis_sample_center (dAtt : ℝ → ℝ → ℝ → ℝ)
    (tex : ℝ → ℝ → Vec3R) (sl : GSpotLight) (ex : GSpotLightEx) (d : ℝ)
    (hTex : ex.hasTexture = true) (hI : ex.intensity = 2)
    (hdir : dot3 sl.direction sl.direction = 1)
    (hup : dot3 ex.up sl.direction = 0)
    (hd : 0 < d)
    (hcone : sl.coneCos < sl.penumbraCos) (hpen : sl.penumbraCos ≤ 1) :
    texSamplePoint sl ex
        (normalize3 (sub3 sl.position (sub3 sl.position (smul3 d sl.direction))))
      = (1 / 2, 1 / 2) ∧
    (getSpotLightInfo dAtt tex sl ex
        (sub3 sl.position (smul3 d sl.direction))).color
      = smul3 (dAtt d sl.distance sl.decay) (smul3 2 (tex (1 / 2) (1 / 2))) := by
  have hlv : sub3 sl.position (sub3 sl.position (smul3 d sl.direction))
      = smul3 d sl.direction := sub3_sub3_self _ _
  have hnorm : normalize3 (smul3 d sl.direction) = sl.direction :=
    normalize3_smul_of_unit hd hdir
  have hsp : texSamplePoint sl ex sl.direction = (1 / 2, 1 / 2) := by
    rw [texSamplePoint]
    have hleft : dot3 sl.direction
        (normalize3 (cross3 ex.up sl.direction)) = 0 :=
      dot3_normalize3_cross3 sl.direction ex.up
    have hupc : dot3 sl.direction ex.up = 0 := by
      rw [dot3_comm]; exact hup
    simp only [hleft, hupc, Real.arccos_zero]
    norm_num
  have hatt : getSpotAttenuation sl.coneCos sl.penumbraCos 1 = 1 := by
    rw [getSpotAttenuation, smoothstep_at_one hcone hpen]
  have hlen : length3 (smul3 d sl.direction) = d :=
    length3_smul_of_unit hd.le hdir
  constructor
  · rw [hlv, hnorm, hsp]
  · rw [getSpotLightInfo]
    simp only [hlv, hnorm, hdir, hatt, hTex, if_true, hlen, hsp, hI]
    rw [if_pos (by norm_num : (0 : ℝ) < 1 ∨ (1 : ℝ) ≤ 0)]
    rw [smul3_one]

/-- C8 witness: direction `(0,0,1)`, up `(0,1,0)`, intensity `2`, point at
distance `2` down the axis, `coneCos = 1/2`, `penumbraCos = 3/4`. -/
theorem on_axis_sample_center_witness :
    (let sl : GSpotLight :=
        { position := ⟨0, 0, 0⟩, direction := ⟨0, 0, 1⟩, color := ⟨1, 1, 1⟩,
          distance := 10, decay := 2, coneCos := 1 / 2, penumbraCos := 3 / 4 }
     let ex : GSpotLightEx := { up := ⟨0, 1, 0⟩, hasTexture := true, intensity := 2 }
     ex.hasTexture = true ∧ dot3 sl.direction sl.direction = 1 ∧
     dot3 ex.up sl.direction = 0 ∧
     (getSpotLightInfo (fun _ _ _ => 1) (fun _ _ => ⟨1, 1, 1⟩) sl ex
        (sub3 sl.position (smul3 2 sl.direction))).color
       = smul3 ((fun (_ _ _ : ℝ) => (1 : ℝ)) 2 sl.distance sl.decay)
           (smul3 2 ((fun (_ _ : ℝ) => (⟨1, 1, 1⟩ : Vec3R)) (1 / 2) (1 / 2)))) := by
  refine ⟨rfl, by norm_num [dot3], by norm_num [dot3], ?_⟩
  exact (on_axis_sample_center (fun _ _ _ => 1) (fun _ _ => ⟨1, 1, 1⟩)
    { position := ⟨0, 0, 0⟩, direction := ⟨0, 0, 1⟩, color := ⟨1, 1, 1⟩,
      distance := 10, decay := 2, coneCos := 1 / 2, penumbraCos := 3 / 4 }
    { up := ⟨0, 1, 0⟩, hasTexture := true, intensity := 2 } 2
    rfl rfl (by norm_num [dot3]) (by norm_num [dot3]) (by norm_num)
    (by norm_num) (by norm_num)).2

/-! ### C9: slot without a texture falls back to the native color -/

/-- C9: whenever a slot's `hasTexture` flag is false and the shaded point is
inside the cone (positive angular attenuation), the patched routine computes
exactly what the unmodified routine computes, and that light color is the
light's native color times the angular attenuation times the distance
attenuation. -/
theorem untextured_matches_original (dAtt : ℝ → ℝ → ℝ → ℝ)
    (tex : ℝ → ℝ → Vec3R) (sl : GSpotLight) (ex : GSpotLightEx) (p : Vec3R)
    (hTex : ex.hasTexture = false)
    (hin : 0 < getSpotAttenuation sl.coneCos sl.penumbraCos
      (dot3 (normalize3 (sub3 sl.position p)) sl.direction)) :
    getSpotLightInfo dAtt tex sl ex p = originalGetSpotLightInfo dAtt sl p ∧
    (getSpotLightInfo dAtt tex sl ex p).color
      = smul3 (dAtt (length3 (sub3 sl.position p)) sl.distance sl.decay)
          (smul3 (getSpotAttenuation sl.coneCos sl.penumbraCos
            (dot3 (normalize3 (sub3 sl.position p)) sl.direction))
            sl.color) := by
  have hpatched : getSpotLightInfo dAtt tex sl ex p
      = { direction := normalize3 (sub3 sl.position p),
          color := smul3 (dAtt (length3 (sub3 sl.position p)) sl.distance
              sl.decay)
            (smul3 (getSpotAttenuation sl.coneCos sl.penumbraCos
              (dot3 (normalize3 (sub3 sl.position p)) sl.direction))
              sl.color),
          visible := smul3 (dAtt (length3 (sub3 sl.position p)) sl.distance
              sl.decay)
            (smul3 (getSpotAttenuation sl.coneCos sl.penumbraCos
              (dot3 (normalize3 (sub3 sl.position p)) sl.direction))
              sl.color) ≠ zero3 } := by
    rw [getSpotLightInfo]
    simp only [hTex, if_false, Bool.false_eq_true]
    rw [if_pos (Or.inl hin)]
  have horig : originalGetSpotLightInfo dAtt sl p
      = { direction := normalize3 (sub3 sl.position p),
          color := smul3 (dAtt (length3 (sub3 sl.position p)) sl.distance
              sl.decay)
            (smul3 (getSpotAttenuation sl.coneCos sl.penumbraCos
              (dot3 (normalize3 (sub3 sl.position p)) sl.direction))
              sl.color),
          visible := smul3 (dAtt (length3 (sub3 sl.position p)) sl.distance
              sl.decay)
            (smul3 (getSpotAttenuation sl.coneCos sl.penumbraCos
              (dot3 (normalize3 (sub3 sl.position p)) sl.direction))
              sl.color) ≠ zero3 } := by
    rw [originalGetSpotLightInfo]
    rw [if_pos hin]
  refine ⟨?_, ?_⟩
  · rw [hpatched, horig]
  · rw [hpatched]

/-- C9 witness: an untextured slot, direction `(0,0,1)`, shaded point
`(0,0,-1)` on the axis (inside the cone, `coneCos = 1/2`,
`penumbraCos = 3/4`); the patched routine equals the original routine
there. -/
theorem untextured_matches_original_witness :
    (let sl : GSpotLight :=
        { position := ⟨0, 0, 0⟩, direction := ⟨0, 0, 1⟩, color := ⟨1, 0, 0⟩,
          distance := 10, decay := 2, coneCos := 1 / 2, penumbraCos := 3 / 4 }
     let ex : GSpotLightEx := { up := ⟨0, 1, 0⟩, hasTexture := false, intensity := 5 }
     ex.hasTexture = false ∧
     0 < getSpotAttenuation sl.coneCos sl.penumbraCos
        (dot3 (normalize3 (sub3 sl.position ⟨0, 0, -1⟩)) sl.direction) ∧
     getSpotLightInfo (fun _ _ _ => 1) (fun _ _ => ⟨1, 1, 1⟩) sl ex ⟨0, 0, -1⟩
        = originalGetSpotLightInfo (fun _ _ _ => 1) sl ⟨0, 0, -1⟩) := by
  have hn : normalize3 (sub3 (⟨0, 0, 0⟩ : Vec3R) ⟨0, 0, -1⟩)
      = (⟨0, 0, 1⟩ : Vec3R) := by
    have h1 : sub3 (⟨0, 0, 0⟩ : Vec3R) ⟨0, 0, -1⟩ = (⟨0, 0, 1⟩ : Vec3R) := by
      ext <;> norm_num [sub3]
    rw [h1, normalize3, length3]
    have h2 : dot3 (⟨0, 0, 1⟩ : Vec3R) ⟨0, 0, 1⟩ = 1 := by norm_num [dot3]
    rw [h2, Real.sqrt_one]
    ext <;> norm_num [smul3]
  have hin : 0 < getSpotAttenuation (1 / 2 : ℝ) (3 / 4)
      (dot3 (normalize3 (sub3 (⟨0, 0, 0⟩ : Vec3R) ⟨0, 0, -1⟩)) ⟨0, 0, 1⟩) := by
    rw [hn]
    have h2 : dot3 (⟨0, 0, 1⟩ : Vec3R) ⟨0, 0, 1⟩ = 1 := by norm_num [dot3]
    rw [h2, getSpotAttenuation, smoothstep_at_one (by norm_num) (by norm_num)]
    norm_num
  exact ⟨rfl, hin,
    (untextured_matches_original (fun _ _ _ => 1) (fun _ _ => ⟨1, 1, 1⟩)
      { position := ⟨0, 0, 0⟩, direction := ⟨0, 0, 1⟩, color := ⟨1, 0, 0⟩,
        distance := 10, decay := 2, coneCos := 1 / 2, penumbraCos := 3 / 4 }
      { up := ⟨0, 1, 0⟩, hasTexture := false, intensity := 5 }
      ⟨0, 0, -1⟩ rfl hin).1⟩

/-! ### C10: `init` requires the mesh object -/

/-- C10: `receive-spotlight-texture.init` dereferences
`getObject3D('mesh').material` unconditionally, so it throws exactly when
the entity has no `mesh` object at init time; it succeeds iff the mesh
exists. -/
theorem init_requires_mesh (e : AEntity) :
    (getObject3D e "mesh" = none → receiveInit e = none) ∧
    ((receiveInit e).isSome ↔ (getObject3D e "mesh").isSome) := by
  constructor
  · intro h
    simp [receiveInit, h]
  · simp [receiveInit]

/-- C10 witness: an entity with no registered objects makes `init` throw. -/
theorem init_requires_mesh_witness :
    getObject3D { object3DMap := fun _ => none } "mesh" = none ∧
    receiveInit { object3DMap := fun _ => none } = none :=
  ⟨rfl, (init_requires_mesh { object3DMap := fun _ => none }).1 rfl⟩

end AframeProjection
